import Mathlib

/-!
Verification of the keyring storage engine (files src/keyring/store/__init__.py,
src/keyring/store/base.py, src/keyring/store/v1_json.py, src/keyring/store/v2_zip.py).

Shallow embedding conventions:
  - Byte strings produced and consumed by the external stdlib codecs
    (gzip, zipfile, json, gnupg) are represented symbolically by the
    inductive type PText: each constructor stands for the output of one
    external serializer.  The repository's own code never inspects the
    bytes of those serializations except for the first four bytes (the
    ZIP probe) and whole-member equality against an ASCII constant, both
    of which are modelled concretely through the stand-in renderer
    readBytes below.
  - Python exceptions are values of the inductive PyExc; a Python function
    that can raise is embedded as a function into Except PyExc.
  - Python dicts are insertion-ordered association lists with unique keys;
    assignment d[k] = v is dictInsert (replace in place, else append).
-/

/-- Python/JSON values as produced by json.load.  The repository only ever
constructs strings, arrays and objects, so the model restricts JSON to those
three constructors. -/
inductive Json where
  | str (s : String)
  | arr (elems : List Json)
  | obj (fields : List (String × Json))

/-- Embedding of keyring.store.base.Item: a named blob's mimetype plus payload
bytes.  The source never validates that the mimetype is a string (it stores
whatever JSON value was read), so the mimetype field is a JSON value; payload
bytes are a list of naturals.  Source equality compares both fields. -/
structure Item where
  mimetype : Json
  data : List Nat

/-- A store is a Python dict mapping entry names to Items: an
insertion-ordered association list whose keys are unique. -/
abbrev Store := List (String × Item)

/-- Python exceptions that the embedded code can raise.  keyError,
attributeError, typeError, jsonDecodeError, binasciiError, badGzipFile and
badZipFile are Python builtins / stdlib exceptions; decryptionError,
notAZippedKeyring and corruptZippedKeyring are the classes defined by the
repository; osError carries the identity of an injected filesystem fault. -/
inductive PyExc where
  | keyError
  | attributeError
  | typeError
  | jsonDecodeError
  | binasciiError
  | badGzipFile
  | badZipFile
  | decryptionError
  | notAZippedKeyring (msg : String)
  | corruptZippedKeyring (msg : String)
  | osError (op : String)
deriving DecidableEq, Repr

/-- Symbolic plaintext byte strings: the possible contents of the decrypted
vault and of archive members.  raw holds literal bytes, json the output of
json.dumps, gzipped the output of the gzip compressor, zipArch a ZIP archive
with its members in write order. -/
inductive PText where
  | raw (d : List Nat)
  | json (j : Json)
  | gzipped (payload : PText)
  | zipArch (members : List (String × PText))

/-- Ciphertext as written to the vault file: either the output of a successful
symmetric OpenPGP encryption of a plaintext under a passphrase, or arbitrary
bytes the engine cannot decrypt (python-gnupg yields empty bytes, modelled as
rawCipher with the byte list, when an operation fails). -/
inductive CipherBytes where
  | pgp (passphrase : String) (plain : PText)
  | rawCipher (d : List Nat)

/-- Association-list lookup by string key, first match wins (Python dict
lookup on a dict whose keys are unique). -/
def assocLookup (l : List (String × α)) (k : String) : Option α :=
  match l with
  | [] => none
  | (k', v) :: t => if k' = k then some v else assocLookup t k

/-- Python dict assignment d[k] = v: replace the value in place when the key
exists, else append the new pair. -/
def dictInsert (k : String) (v : α) : List (String × α) → List (String × α)
  | [] => [(k, v)]
  | (k', v') :: t => if k' = k then (k', v) :: t else (k', v') :: dictInsert k v t

/-- Modelled external library: base64.b64encode followed by ascii decode.
Stand-in injective text codec: each byte n is rendered as n repetitions of
the character i followed by a dot.  Only invertibility and rejection of
malformed text matter to the source, which treats the base64 text as opaque. -/
def b64encBytes : List Nat → List Char
  | [] => []
  | n :: t => List.replicate n 'i' ++ '.' :: b64encBytes t

/-- Modelled external library: the string produced by _base64_encode in
src/keyring/store/v1_json.py. -/
def b64encode (d : List Nat) : String := ⟨b64encBytes d⟩

/-- Decoding loop for the stand-in base64 codec: acc counts the i characters
of the byte currently being read. -/
def b64decAux : List Char → Nat → Option (List Nat)
  | [], 0 => some []
  | [], _ + 1 => none
  | c :: t, acc =>
    if c = '.' then (b64decAux t 0).map (fun r => acc :: r)
    else if c = 'i' then b64decAux t (acc + 1)
    else none

/-- Modelled external library: base64.b64decode as called by _base64_decode in
src/keyring/store/v1_json.py; malformed text raises binascii.Error. -/
def b64decode (s : String) : Except PyExc (List Nat) :=
  match b64decAux s.data 0 with
  | some d => .ok d
  | none => .error .binasciiError

/-- Modelled external library: json.dumps rendered to UTF-8 bytes.  Stand-in
renderer producing JSON-looking text (string escaping elided); the source
never re-parses these bytes, it only ever reads them verbatim as an archive
member payload, so only totality matters. -/
def strRender (s : String) : List Nat :=
  34 :: (s.data.map Char.toNat) ++ [34]

mutual

def jsonRender : Json → List Nat
  | .str s => strRender s
  | .arr xs => 91 :: jsonRenderList xs ++ [93]
  | .obj xs => 123 :: jsonRenderObj xs ++ [125]

def jsonRenderList : List Json → List Nat
  | [] => []
  | j :: t => jsonRender j ++ 44 :: jsonRenderList t

def jsonRenderObj : List (String × Json) → List Nat
  | [] => []
  | (k, v) :: t => strRender k ++ 58 :: jsonRender v ++ 44 :: jsonRenderObj t

end

mutual

/-- Modelled concrete byte rendering of a symbolic byte string, used where the
source reads a member's bytes verbatim: literal bytes render as themselves,
json text through jsonRender, a gzip stream as the gzip header written by
gzip.GzipFile on a plain file object (magic 1f 8b, deflate method 08, empty
flags) followed by a stand-in body, a ZIP archive as the leading signature
Python's zipfile actually writes (local-file-header PK 03 04 when at least
one member exists, end-of-central-directory PK 05 06 for an empty archive)
followed by a stand-in body. -/
def readBytes : PText → List Nat
  | .raw d => d
  | .json j => jsonRender j
  | .gzipped p => 0x1f :: 0x8b :: 0x08 :: 0x00 :: readBytes p
  | .zipArch ms =>
    match ms with
    | [] => [0x50, 0x4b, 0x05, 0x06]
    | _ :: _ => 0x50 :: 0x4b :: 0x03 :: 0x04 :: readBytesMembers ms

def readBytesMembers : List (String × PText) → List Nat
  | [] => []
  | (n, p) :: t => (n.data.map Char.toNat) ++ readBytes p ++ readBytesMembers t

end

/-- Modelled external library: reading from gzip.GzipFile(fileobj, mode=rb).
A stream produced by the gzip compressor decompresses to its payload; any
other stream fails the gzip magic check and raises gzip.BadGzipFile. -/
def gunzip : PText → Except PyExc PText
  | .gzipped p => .ok p
  | _ => .error .badGzipFile

/-- Modelled external library: the Keystore._compress / _write path wrapping
codec output in gzip.GzipFile(fileobj, mode=wb). -/
def gzipCompress (p : PText) : PText := .gzipped p

/-- Modelled external library: io.TextIOWrapper(utf-8) plus json.load.  The
output of json.dumps parses back to the dumped value; any other byte string
is treated as failing with json.JSONDecodeError (invalid UTF-8, which would
raise UnicodeDecodeError instead, is merged into this case; no claim
distinguishes the two). -/
def jsonLoads : PText → Except PyExc Json
  | .json j => .ok j
  | _ => .error .jsonDecodeError

/-- Embedding of the Python subscript v[k]: indexing a dict returns the value
or raises KeyError; indexing a string or list with a string key raises
TypeError. -/
def jsonGetItem (j : Json) (k : String) : Except PyExc Json :=
  match j with
  | .obj fields =>
    match assocLookup fields k with
    | some v => .ok v
    | none => .error .keyError
  | _ => .error .typeError

/-- Embedding of Python iteration over a parsed JSON value: a list yields its
elements, a dict yields its keys, a string yields its one-character
substrings. -/
def pyIter : Json → List Json
  | .arr xs => xs
  | .obj fs => fs.map (fun p => .str p.1)
  | .str s => s.data.map (fun c => .str ⟨[c]⟩)

/-- Embedding of str.encode(ascii) as applied by _base64_decode to the data
field: a string encodes, anything else lacks the encode attribute and raises
AttributeError. -/
def asAsciiStr (j : Json) : Except PyExc String :=
  match j with
  | .str s => .ok s
  | _ => .error .attributeError

/-- Result object returned by gnupg.GPG.encrypt: ok flag plus output data. -/
structure GpgEncResult where
  ok : Bool
  data : CipherBytes

/-- Result object returned by gnupg.GPG.decrypt_file: ok flag plus output
data. -/
structure GpgDecResult where
  ok : Bool
  data : PText

/-- Modelled external library: gnupg.GPG.encrypt with symmetric=True and
armor=False.  engineOk injects whether the external engine succeeds; on
failure python-gnupg reports ok=False and empty data rather than raising. -/
def gpgEncrypt (plain : PText) (passphrase : String) (engineOk : Bool) : GpgEncResult :=
  if engineOk then ⟨true, .pgp passphrase plain⟩ else ⟨false, .rawCipher []⟩

/-- Modelled external library: gnupg.GPG.decrypt_file.  Decryption succeeds
exactly on a symmetric ciphertext under the matching passphrase; a wrong
passphrase or a non-OpenPGP byte string yields ok=False with empty data. -/
def gpgDecryptFile (c : CipherBytes) (passphrase : String) : GpgDecResult :=
  match c with
  | .pgp p d => if passphrase = p then ⟨true, d⟩ else ⟨false, .raw []⟩
  | .rawCipher _ => ⟨false, .raw []⟩

namespace V1JsonStore

/-- Embedding of V1JsonStore._write_store_data composed with json.dump: build
the dict name -> (type, base64 data) by iterating the store, keeping
insertion order. -/
def write_store_data (store : Store) : Json :=
  .obj (store.map (fun p =>
    (p.1, .obj [("type", p.2.mimetype), ("data", .str (b64encode p.2.data))])))

/-- Embedding of the for loop of V1JsonStore._read_store_data over the items
of the parsed JSON object: read v[type], base64-decode v[data], and assign
store[k]. -/
def read_items : List (String × Json) → Store → Except PyExc Store
  | [], store => .ok store
  | kv :: rest, store => do
    let mimetype ← jsonGetItem kv.2 "type"
    let dataField ← jsonGetItem kv.2 "data"
    let encoded ← asAsciiStr dataField
    let data ← b64decode encoded
    read_items rest (dictInsert kv.1 ⟨mimetype, data⟩ store)

/-- Embedding of V1JsonStore._read_store_data: json.load the stream, then run
the item loop over the parsed object's items into a fresh store dict.
Iterating .items() of a non-dict raises AttributeError. -/
def read_store_data (p : PText) : Except PyExc Store := do
  let j ← jsonLoads p
  match j with
  | .obj fields => read_items fields []
  | _ => .error .attributeError

/-- Embedding of Keystore.read specialized to V1JsonStore: decompress with the
gzip envelope, then parse the store data. -/
def read (p : PText) : Except PyExc Store := do
  read_store_data (← gunzip p)

/-- Embedding of Keystore.write specialized to V1JsonStore: write the store
data through the gzip compression envelope. -/
def write (s : Store) : PText := gzipCompress (.json (write_store_data s))

end V1JsonStore

/-- Embedding of _ZIP_KEYRING_MAGIC in src/keyring/store/v2_zip.py: the ASCII
bytes of the marker string. -/
def ZIP_KEYRING_MAGIC : List Nat :=
  "application/vnd.keyring.v2-zip.magic".data.map Char.toNat

/-- Embedding of _ZIP_MAGIC: the three 4-byte ZIP signatures accepted by the
probe. -/
def ZIP_MAGIC : List (List Nat) :=
  [[0x50, 0x4b, 0x03, 0x04], [0x50, 0x4b, 0x05, 0x06], [0x50, 0x4b, 0x07, 0x08]]

/-- Modelled external library: zipfile.ZipFile.open(name).  ZipFile resolves a
member name through its NameToInfo dict, which is built in member order so a
later member with the same path overrides an earlier one; a missing name
raises KeyError. -/
def zipOpenMember (members : List (String × PText)) (name : String) :
    Except PyExc PText :=
  match assocLookup members.reverse name with
  | some p => .ok p
  | none => .error .keyError

namespace V2ZipStore

/-- Embedding of V2ZipStore.magic_detect: read the first 4 bytes; if fewer
than 4 are available the probe fails, otherwise test membership in
_ZIP_MAGIC. -/
def magic_detect (p : PText) : Bool :=
  let magic := (readBytes p).take 4
  if magic.length ≠ 4 then false else ZIP_MAGIC.contains magic

/-- Embedding of open_as_zip_keyring: parse the stream as a ZIP archive (a
non-ZIP stream raises BadZipFile, converted to NotAZippedKeyring), read the
member META-INF/MAGIC (any failure there is converted to NotAZippedKeyring),
and compare its bytes with the fixed marker. -/
def open_as_zip_keyring (p : PText) :
    Except PyExc (List (String × PText)) :=
  match p with
  | .zipArch members =>
    match zipOpenMember members "META-INF/MAGIC" with
    | .error _ => .error (.notAZippedKeyring "Unable to read META-INF/MAGIC.")
    | .ok m =>
      if readBytes m = ZIP_KEYRING_MAGIC then .ok members
      else .error (.notAZippedKeyring "META-INF/MAGIC did not have the correct value.")
  | _ => .error (.notAZippedKeyring "Not a ZIP file.")

/-- Embedding of the yield loop of _read_contents_file: iterate the parsed
value and extract (obj[zip_path], obj[mimetype]) from each element.  The
source is a generator fully consumed inside V2ZipStore.read, so the eager
embedding is observationally equivalent.  A non-string zip_path is modelled
as TypeError (zipfile's name lookup rejects it); this case is exercised by
no claim. -/
def contents_records : List Json → Except PyExc (List (String × Json))
  | [] => .ok []
  | o :: rest => do
    let zp ← jsonGetItem o "zip_path"
    let mt ← jsonGetItem o "mimetype"
    match zp with
    | .str s => do
      let tail ← contents_records rest
      pure ((s, mt) :: tail)
    | _ => .error .typeError

/-- Embedding of _read_contents_file proper: open META-INF/CONTENTS, json.load
it, and run the record loop. -/
def read_contents_file (members : List (String × PText)) :
    Except PyExc (List (String × Json)) := do
  let c ← zipOpenMember members "META-INF/CONTENTS"
  let j ← jsonLoads c
  contents_records (pyIter j)

/-- Embedding of the member loop of V2ZipStore.read: for each manifest record
read the member at zip_path and assign store[zip_path] =
Item(mimetype, data). -/
def read_members (members : List (String × PText)) :
    List (String × Json) → Store → Except PyExc Store
  | [], store => .ok store
  | zm :: rest, store => do
    let m ← zipOpenMember members zm.1
    read_members members rest (dictInsert zm.1 ⟨zm.2, readBytes m⟩ store)

/-- Embedding of V2ZipStore.read: open as a zip keyring, read the manifest,
then run the member loop into a fresh store dict. -/
def read (p : PText) : Except PyExc Store := do
  let members ← open_as_zip_keyring p
  let contents ← read_contents_file members
  read_members members contents []

/-- Embedding of V2ZipStore.write: write META-INF/MAGIC first, then one member
per entry at a path equal to its name (collecting the manifest record in the
same loop), then META-INF/CONTENTS last.  No outer compression envelope is
applied (write is overridden; _compress is the identity pass-through). -/
def write (s : Store) : PText :=
  .zipArch (("META-INF/MAGIC", .raw ZIP_KEYRING_MAGIC)
    :: s.map (fun p => (p.1, PText.raw p.2.data))
    ++ [("META-INF/CONTENTS",
         .json (.arr (s.map (fun p =>
           .obj [("zip_path", .str p.1), ("mimetype", p.2.mimetype)]))))])

end V2ZipStore

/-- A store object together with its codec class, determining which write
method dynamic dispatch selects in write_keystore. -/
inductive StoreObj where
  | v1 (s : Store)
  | v2 (s : Store)

/-- Dynamic dispatch of store.write in write_keystore. -/
def StoreObj.write : StoreObj → PText
  | .v1 s => V1JsonStore.write s
  | .v2 s => V2ZipStore.write s

/-- Embedding of read_keystore from src/keyring/store/__init__.py (data path;
the trust-store directory lifecycle of the _wrap_gpg decorator is modelled
separately by wrap_gpg below): open the file, decrypt it, raise
DecryptionError when the engine reports failure, then decode the plaintext
with the V1 codec unconditionally.  The file argument is the vault file's
content, none when the file does not exist (open raises). -/
def read_keystore (fileContent : Option CipherBytes) (passphrase : String) :
    Except PyExc Store :=
  match fileContent with
  | none => .error (.osError "open")
  | some c =>
    let decrypted_data := gpgDecryptFile c passphrase
    if decrypted_data.ok then V1JsonStore.read decrypted_data.data
    else .error .decryptionError

/-- Injected faults for one write_keystore call: each Option String field
raises an OSError carrying that string at the corresponding step when set;
encryptEngineOk injects whether the external engine reports success (on
failure python-gnupg returns ok=False with empty data instead of raising). -/
structure Faults where
  encodeRaises : Option String
  encryptRaises : Option String
  encryptEngineOk : Bool
  openRaises : Option String
  fdopenRaises : Option String
  writeRaises : Option String
  renameRaises : Option String

/-- A fault-free call. -/
def noFaults : Faults := ⟨none, none, true, none, none, none, none⟩

/-- The observable filesystem around one vault path: the destination file's
content and the content of the sibling temporary path (path + .writing),
none when the file does not exist. -/
structure FS where
  dest : Option CipherBytes
  temp : Option CipherBytes

/-- Embedding of write_keystore from src/keyring/store/__init__.py: encode the
store into a memory buffer (store.write), encrypt (the ok flag of the result
is never checked), os.open the temporary path with O_TRUNC, write the
encrypted bytes, rename over the destination.  Failures in encoding,
encryption or os.open propagate (nothing is on disk yet at os.open failure,
so the filesystem is unchanged); failures in fdopen, write or rename reach
the outer bare except clause, which unlinks the temporary file and - having
no raise - swallows the exception, so the call returns normally. -/
def write_keystore (f : Faults) (store : StoreObj) (passphrase : String)
    (fs : FS) : Except PyExc Unit × FS :=
  match f.encodeRaises with
  | some e => (.error (.osError e), fs)
  | none =>
  match f.encryptRaises with
  | some e => (.error (.osError e), fs)
  | none =>
  let encrypted_data := gpgEncrypt store.write passphrase f.encryptEngineOk
  match f.openRaises with
  | some e => (.error (.osError e), fs)
  | none =>
  -- temporary file now exists (created 0o600, truncated)
  match f.fdopenRaises with
  | some _ => (.ok (), ⟨fs.dest, none⟩)
  | none =>
  match f.writeRaises with
  | some _ => (.ok (), ⟨fs.dest, none⟩)
  | none =>
  -- encrypted bytes fully written to the temporary file
  match f.renameRaises with
  | some _ => (.ok (), ⟨fs.dest, none⟩)
  | none =>
  (.ok (), ⟨some encrypted_data.data, none⟩)

/-- State of the world of ephemeral trust-store directories: a counter
supplying the next directory name tempfile.mkdtemp would create, plus the
set of directories currently on disk. -/
structure GpgState where
  nextId : Nat
  dirs : List Nat

/-- Modelled external library: tempfile.mkdtemp creates a fresh directory. -/
def mkdtemp (s : GpgState) : Nat × GpgState :=
  (s.nextId, ⟨s.nextId + 1, s.nextId :: s.dirs⟩)

/-- Embedding of Gpg.close: subprocess rm -rf of the temp directory. -/
def rmTree (d : Nat) (s : GpgState) : GpgState :=
  ⟨s.nextId, s.dirs.erase d⟩

/-- Embedding of the _wrap_gpg decorator applied to read_keystore and
write_keystore: when no gpg_context keyword is supplied (ctx = none), build
a Gpg wrapper (tempfile.mkdtemp + engine handle), run the wrapped body, and
in the finally clause close the wrapper (delete the directory) whether the
body returned or raised; when the caller supplies a context it is used as
is and neither created nor deleted.  The body of either operation never
touches the directory state, so its outcome is the injected value inner;
the third component reports which directory this call created, if any. -/
def wrap_gpg (ctx : Option Nat) (inner : Except PyExc α) (s : GpgState) :
    Except PyExc α × GpgState × Option Nat :=
  match ctx with
  | some _ => (inner, s, none)
  | none =>
    let created := mkdtemp s
    (inner, rmTree created.1 created.2, some created.1)

/-! ## Helper lemmas -/

@[simp]
theorem except_ok_bind (a : α) (f : α → Except ε β) :
    (Except.ok a >>= f : Except ε β) = f a := rfl

@[simp]
theorem except_error_bind (e : ε) (f : α → Except ε β) :
    (Except.error e >>= f : Except ε β) = Except.error e := rfl

theorem b64decAux_encode (n : Nat) (rest : List Char) (acc : Nat) :
    b64decAux (List.replicate n 'i' ++ '.' :: rest) acc
      = (b64decAux rest 0).map (fun r => (acc + n) :: r) := by
  induction n generalizing acc with
  | zero => simp [b64decAux]
  | succ m ih =>
    have h : acc + 1 + m = acc + (m + 1) := by omega
    simp [List.replicate_succ, b64decAux, ih (acc + 1), h]

theorem b64_roundtrip (d : List Nat) : b64decode (b64encode d) = .ok d := by
  have h : ∀ l : List Nat, b64decAux (b64encBytes l) 0 = some l := by
    intro l
    induction l with
    | nil => rfl
    | cons n t ih => simp [b64encBytes, b64decAux_encode, ih]
  simp [b64decode, b64encode, h]

theorem assocLookup_eq_none (l : List (String × α)) (k : String)
    (h : k ∉ l.map Prod.fst) : assocLookup l k = none := by
  induction l with
  | nil => rfl
  | cons p t ih =>
    simp only [List.map_cons, List.mem_cons] at h
    push_neg at h
    simp only [assocLookup]
    rw [if_neg (fun hh => h.1 hh.symm), ih h.2]

theorem assocLookup_append (l1 l2 : List (String × α)) (k : String) :
    assocLookup (l1 ++ l2) k
      = match assocLookup l1 k with
        | some v => some v
        | none => assocLookup l2 k := by
  induction l1 with
  | nil => rfl
  | cons p t ih =>
    simp only [List.cons_append, assocLookup]
    by_cases hk : p.1 = k
    · simp [hk]
    · simp [hk, ih]

theorem assocLookup_reverse (l : List (String × α)) (k : String)
    (h : (l.map Prod.fst).Nodup) : assocLookup l.reverse k = assocLookup l k := by
  induction l with
  | nil => rfl
  | cons p t ih =>
    simp only [List.map_cons, List.nodup_cons] at h
    simp only [List.reverse_cons, assocLookup_append, assocLookup]
    by_cases hk : p.1 = k
    · subst hk
      rw [ih h.2, assocLookup_eq_none t p.1 h.1]
    · rw [ih h.2]
      cases assocLookup t k with
      | none => simp [assocLookup, hk]
      | some v => simp [hk]

theorem assocLookup_map (S : List (String × α)) (g : α → β) (k : String) :
    assocLookup (S.map (fun p => (p.1, g p.2))) k = (assocLookup S k).map g := by
  induction S with
  | nil => rfl
  | cons p t ih =>
    simp only [List.map_cons, assocLookup]
    by_cases hk : p.1 = k
    · simp [hk]
    · simp [hk, ih]

theorem dictInsert_not_mem (k : String) (v : α) (l : List (String × α))
    (h : k ∉ l.map Prod.fst) : dictInsert k v l = l ++ [(k, v)] := by
  induction l with
  | nil => rfl
  | cons p t ih =>
    simp only [List.map_cons, List.mem_cons] at h
    push_neg at h
    simp only [dictInsert]
    rw [if_neg (fun hh => h.1 hh.symm), ih h.2]
    rfl

theorem jsonGetItem_entry_type (mt : Json) (e : String) :
    jsonGetItem (.obj [("type", mt), ("data", .str e)]) "type" = .ok mt := rfl

theorem jsonGetItem_entry_data (mt : Json) (e : String) :
    jsonGetItem (.obj [("type", mt), ("data", .str e)]) "data" = .ok (.str e) := rfl

theorem read_items_encode (S : Store) :
    ∀ acc : Store, (acc.map Prod.fst ++ S.map Prod.fst).Nodup →
    V1JsonStore.read_items
      (S.map (fun p =>
        (p.1, Json.obj [("type", p.2.mimetype), ("data", Json.str (b64encode p.2.data))])))
      acc = .ok (acc ++ S) := by
  induction S with
  | nil => intro acc _; simp [V1JsonStore.read_items]
  | cons p t ih =>
    intro acc h
    have hknotin : p.1 ∉ acc.map Prod.fst := by
      simp only [List.map_cons, List.nodup_append, List.disjoint_left] at h
      exact fun hmem => h.2.2 hmem (by simp)
    simp only [List.map_cons, V1JsonStore.read_items, jsonGetItem_entry_type,
      jsonGetItem_entry_data, asAsciiStr, b64_roundtrip, except_ok_bind]
    rw [dictInsert_not_mem p.1 ⟨p.2.mimetype, p.2.data⟩ acc hknotin]
    have h2 : ((acc ++ [(p.1, p.2)]).map Prod.fst ++ t.map Prod.fst).Nodup := by
      simp only [List.map_cons, List.map_append] at h ⊢
      simpa [List.append_assoc] using h
    have := ih (acc ++ [(p.1, p.2)]) h2
    simpa [List.append_assoc] using this

theorem v1_roundtrip (S : Store) (hnd : (S.map Prod.fst).Nodup) :
    V1JsonStore.read (V1JsonStore.write S) = .ok S := by
  have h := read_items_encode S [] (by simpa using hnd)
  simp only [V1JsonStore.read, V1JsonStore.write, V1JsonStore.write_store_data,
    gzipCompress, gunzip, V1JsonStore.read_store_data, jsonLoads, except_ok_bind]
  simpa using h

theorem assocLookup_of_mem (S : List (String × α)) (n : String) (v : α)
    (hnd : (S.map Prod.fst).Nodup) (hmem : (n, v) ∈ S) :
    assocLookup S n = some v := by
  induction S with
  | nil => cases hmem
  | cons q t ih =>
    simp only [List.map_cons, List.nodup_cons] at hnd
    simp only [List.mem_cons] at hmem
    simp only [assocLookup]
    by_cases hk : q.1 = n
    · cases hmem with
      | inl he => rw [← he]; simp
      | inr ht =>
        exact absurd (hk ▸ List.mem_map_of_mem Prod.fst ht) hnd.1
    · cases hmem with
      | inl he => exact absurd (congrArg Prod.fst he).symm hk
      | inr ht => simp [hk, ih hnd.2 ht]

theorem jsonGetItem_record_path (n : String) (mt : Json) :
    jsonGetItem (.obj [("zip_path", .str n), ("mimetype", mt)]) "zip_path"
      = .ok (.str n) := rfl

theorem jsonGetItem_record_mime (n : String) (mt : Json) :
    jsonGetItem (.obj [("zip_path", .str n), ("mimetype", mt)]) "mimetype"
      = .ok mt := rfl

theorem contents_records_encode (S : Store) :
    V2ZipStore.contents_records
      (S.map (fun p => Json.obj [("zip_path", Json.str p.1), ("mimetype", p.2.mimetype)]))
      = .ok (S.map (fun p => (p.1, p.2.mimetype))) := by
  induction S with
  | nil => rfl
  | cons p t ih =>
    simp only [List.map_cons, V2ZipStore.contents_records, jsonGetItem_record_path,
      jsonGetItem_record_mime, except_ok_bind, ih]
    rfl

/-- Shorthand for the member list written by V2ZipStore.write. -/
def v2members (S : Store) : List (String × PText) :=
  ("META-INF/MAGIC", .raw ZIP_KEYRING_MAGIC)
    :: S.map (fun p => (p.1, PText.raw p.2.data))
    ++ [("META-INF/CONTENTS",
         .json (.arr (S.map (fun p =>
           .obj [("zip_path", .str p.1), ("mimetype", p.2.mimetype)]))))]

theorem v2Write_eq (S : Store) : V2ZipStore.write S = .zipArch (v2members S) := rfl

theorem v2members_magic (S : Store)
    (hm : "META-INF/MAGIC" ∉ S.map Prod.fst) :
    zipOpenMember (v2members S) "META-INF/MAGIC" = .ok (.raw ZIP_KEYRING_MAGIC) := by
  simp only [zipOpenMember, v2members, List.reverse_cons, List.reverse_append,
    List.singleton_append, List.cons_append, List.append_eq, List.nil_append,
    assocLookup]
  rw [if_neg (by decide), assocLookup_append]
  rw [assocLookup_eq_none]
  · simp [assocLookup]
  · simpa [List.map_reverse, List.map_map, Function.comp] using hm

theorem v2members_contents (S : Store) :
    zipOpenMember (v2members S) "META-INF/CONTENTS"
      = .ok (.json (.arr (S.map (fun p =>
          .obj [("zip_path", .str p.1), ("mimetype", p.2.mimetype)])))) := by
  simp only [zipOpenMember, v2members, List.reverse_cons, List.reverse_append,
    List.singleton_append, List.cons_append, List.append_eq, List.nil_append,
    assocLookup]
  simp

theorem v2members_entry (S : Store) (p : String × Item)
    (hnd : (S.map Prod.fst).Nodup)
    (hc : "META-INF/CONTENTS" ∉ S.map Prod.fst)
    (hmem : p ∈ S) :
    zipOpenMember (v2members S) p.1 = .ok (.raw p.2.data) := by
  have hne : "META-INF/CONTENTS" ≠ p.1 := by
    intro he
    exact hc (he ▸ List.mem_map_of_mem Prod.fst hmem)
  have hkeys : ((S.map (fun p => (p.1, PText.raw p.2.data))).map Prod.fst).Nodup := by
    simpa [List.map_map, Function.comp] using hnd
  simp only [zipOpenMember, v2members, List.reverse_cons, List.reverse_append,
    List.singleton_append, List.cons_append, List.append_eq, List.nil_append,
    assocLookup]
  rw [if_neg hne, assocLookup_append, assocLookup_reverse _ _ hkeys]
  have : assocLookup (S.map (fun p => (p.1, PText.raw p.2.data))) p.1
      = some (.raw p.2.data) := by
    rw [assocLookup_map S (fun it => PText.raw it.data) p.1,
      assocLookup_of_mem S p.1 p.2 hnd hmem]
    rfl
  rw [this]

theorem read_members_encode (M : List (String × PText)) (T : Store)
    (hT : ∀ p ∈ T, zipOpenMember M p.1 = .ok (.raw p.2.data)) :
    ∀ acc : Store, (acc.map Prod.fst ++ T.map Prod.fst).Nodup →
    V2ZipStore.read_members M (T.map (fun p => (p.1, p.2.mimetype))) acc
      = .ok (acc ++ T) := by
  induction T with
  | nil => intro acc _; simp [V2ZipStore.read_members]
  | cons p t ih =>
    intro acc h
    have hknotin : p.1 ∉ acc.map Prod.fst := by
      simp only [List.map_cons, List.nodup_append, List.disjoint_left] at h
      exact fun hmem => h.2.2 hmem (by simp)
    simp only [List.map_cons, V2ZipStore.read_members,
      hT p (List.mem_cons_self p t), except_ok_bind, readBytes]
    rw [dictInsert_not_mem p.1 ⟨p.2.mimetype, p.2.data⟩ acc hknotin]
    have h2 : ((acc ++ [(p.1, p.2)]).map Prod.fst ++ t.map Prod.fst).Nodup := by
      simp only [List.map_cons, List.map_append] at h ⊢
      simpa [List.append_assoc] using h
    have := ih (fun q hq => hT q (List.mem_cons_of_mem p hq)) (acc ++ [(p.1, p.2)]) h2
    simpa [List.append_assoc] using this

theorem v2_roundtrip (S : Store)
    (hnd : (S.map Prod.fst).Nodup)
    (hm : "META-INF/MAGIC" ∉ S.map Prod.fst)
    (hc : "META-INF/CONTENTS" ∉ S.map Prod.fst) :
    V2ZipStore.read (V2ZipStore.write S) = .ok S := by
  have hopen : V2ZipStore.open_as_zip_keyring (V2ZipStore.write S) = .ok (v2members S) := by
    rw [v2Write_eq]
    simp only [V2ZipStore.open_as_zip_keyring, v2members_magic S hm]
    simp [readBytes]
  have hcontents : V2ZipStore.read_contents_file (v2members S)
      = .ok (S.map (fun p => (p.1, p.2.mimetype))) := by
    simp only [V2ZipStore.read_contents_file, v2members_contents S, except_ok_bind,
      jsonLoads, pyIter, contents_records_encode]
  have hmembers := read_members_encode (v2members S) S
    (fun p hp => v2members_entry S p hnd hc hp) [] (by simpa using hnd)
  simp only [V2ZipStore.read, hopen, except_ok_bind, hcontents]
  simpa using hmembers

theorem take4_cons (a b c d : Nat) (rest : List Nat) :
    (a :: b :: c :: d :: rest).take 4 = [a, b, c, d] := rfl

/-! ## Claims -/

/-- Claim C1, counterexample: the claim asserts the save/load round trip holds
for the V2 codec as well, but read_keystore always decodes the decrypted
plaintext as V1, so loading a vault saved from a V2 store fails with a gzip
error instead of returning the store. -/
theorem C1_counterexample :
    read_keystore
        (write_keystore noFaults (.v2 [("a", ⟨.str "text/plain", [1, 2]⟩)]) "p"
          ⟨none, none⟩).2.dest "p"
      = .error .badGzipFile ∧
    (Except.error PyExc.badGzipFile : Except PyExc Store)
      ≠ .ok [("a", ⟨.str "text/plain", [1, 2]⟩)] :=
  ⟨rfl, fun h => nomatch h⟩

/-- Claim C1, amended: for every store with unique names and every passphrase,
saving with the V1 codec and loading with the same passphrase returns a store
structurally equal to the original; a vault saved with the V2 codec can
never be loaded: load decodes V1 unconditionally and fails with a gzip error
on the V2 bytes. -/
theorem C1_roundtrip_amended (S T : Store) (p q : String) (fs fs2 : FS)
    (hnd : (S.map Prod.fst).Nodup) :
    read_keystore (write_keystore noFaults (.v1 S) p fs).2.dest p = .ok S ∧
    read_keystore (write_keystore noFaults (.v2 T) q fs2).2.dest q
      = .error .badGzipFile := by
  constructor
  · simp only [write_keystore, noFaults, gpgEncrypt, StoreObj.write, read_keystore,
      gpgDecryptFile, if_pos rfl, if_true]
    exact v1_roundtrip S hnd
  · simp only [write_keystore, noFaults, gpgEncrypt, StoreObj.write, read_keystore,
      gpgDecryptFile, if_pos rfl, if_true]
    rfl

/-- Claim C1, witness for the amended theorem at a concrete two-entry store. -/
theorem C1_roundtrip_amended_witness :
    ((([("a", ⟨.str "text/plain", [1, 2]⟩), ("b", ⟨.str "application/json", [3]⟩)] :
        Store).map Prod.fst).Nodup) ∧
    (read_keystore
        (write_keystore noFaults
          (.v1 [("a", ⟨.str "text/plain", [1, 2]⟩), ("b", ⟨.str "application/json", [3]⟩)])
          "hunter2" ⟨none, none⟩).2.dest "hunter2"
      = .ok [("a", ⟨.str "text/plain", [1, 2]⟩), ("b", ⟨.str "application/json", [3]⟩)] ∧
    read_keystore
        (write_keystore noFaults (.v2 [("c", ⟨.str "t", [7]⟩)]) "pw" ⟨none, none⟩).2.dest "pw"
      = .error .badGzipFile) :=
  ⟨by simp,
   C1_roundtrip_amended
     [("a", ⟨.str "text/plain", [1, 2]⟩), ("b", ⟨.str "application/json", [3]⟩)]
     [("c", ⟨.str "t", [7]⟩)] "hunter2" "pw" ⟨none, none⟩ ⟨none, none⟩ (by simp)⟩

/-- Claim C2, counterexample: on a vault saved from a V2 store, decryption
succeeds, the decrypted plaintext satisfies the 4-byte probe, and the V2
codec would decode it, yet load fails with a gzip error: read_keystore never
applies the probe and always decodes as V1. -/
theorem C2_counterexample :
    V2ZipStore.magic_detect (StoreObj.v2 []).write = true ∧
    V2ZipStore.read (StoreObj.v2 []).write = .ok [] ∧
    read_keystore (some (.pgp "pw" (StoreObj.v2 []).write)) "pw"
      = .error .badGzipFile :=
  ⟨rfl, rfl, rfl⟩

/-- Claim C2, amended: read_keystore applies no probe: every successfully
decrypted plaintext is decoded by the V1 codec unconditionally.  The probe
itself does discriminate the encoders: a plaintext produced by the V2
encoder always satisfies it and one produced by the V1 encoder never does. -/
theorem C2_probe_amended (S T : Store) (p : String) (plain : PText) :
    V2ZipStore.magic_detect (V2ZipStore.write S) = true ∧
    V2ZipStore.magic_detect (V1JsonStore.write T) = false ∧
    read_keystore (some (.pgp p plain)) p = V1JsonStore.read plain := by
  refine ⟨?_, rfl, ?_⟩
  · simp [V2ZipStore.magic_detect, V2ZipStore.write, readBytes, take4_cons, ZIP_MAGIC]
  · simp [read_keystore, gpgDecryptFile]

/-- Claim C3, code bug: when the external engine reports an encryption
failure (python-gnupg returns ok=False with empty data instead of raising),
write_keystore never checks the ok flag: it writes the empty output to the
temporary file and renames it over the destination, destroying the prior
vault contents, where the claim requires the destination to be unchanged on
any failure before the rename. -/
theorem C3_encrypt_failure_clobbers :
    write_keystore ⟨none, none, false, none, none, none, none⟩
        (.v1 [("a", ⟨.str "text/plain", [1]⟩)]) "p"
        ⟨some (.pgp "p" (.raw [9])), none⟩
      = (.ok (), ⟨some (.rawCipher []), none⟩) ∧
    (some (CipherBytes.rawCipher []) ≠ some (CipherBytes.pgp "p" (.raw [9]))) :=
  ⟨rfl, fun h => nomatch h⟩

/-- Claim C4, code bug: a failure in the rename step (and likewise in fdopen
or in writing the bytes) is caught by the outer bare except clause of
write_keystore, which unlinks the temporary file and, lacking a raise,
swallows the exception: the call returns success instead of surfacing the
failure to its caller. -/
theorem C4_rename_failure_swallowed :
    write_keystore ⟨none, none, true, none, none, none, some "rename"⟩
        (.v1 [("a", ⟨.str "text/plain", [1]⟩)]) "p" ⟨none, none⟩
      = (.ok (), ⟨none, none⟩) ∧
    (∀ e : PyExc, (Except.ok () : Except PyExc Unit) ≠ .error e) :=
  ⟨rfl, fun _ h => nomatch h⟩

/-- Claim C5: loading a validly saved vault with any passphrase other than
the one it was saved with raises DecryptionError, and likewise loading a
ciphertext the engine cannot decrypt; no other error kind is produced. -/
theorem C5_wrong_passphrase (stobj : StoreObj) (p q : String) (fs : FS)
    (d : List Nat) (hneq : q ≠ p) :
    read_keystore (write_keystore noFaults stobj p fs).2.dest q
      = .error .decryptionError ∧
    read_keystore (some (.rawCipher d)) q = .error .decryptionError := by
  constructor
  · simp [write_keystore, noFaults, gpgEncrypt, read_keystore, gpgDecryptFile, hneq]
  · rfl

/-- Claim C5, witness at the spec's example passphrases. -/
theorem C5_wrong_passphrase_witness :
    ("wrong" ≠ "hunter2") ∧
    (read_keystore
        (write_keystore noFaults (.v1 [("a", ⟨.str "text/plain", [1]⟩)]) "hunter2"
          ⟨none, none⟩).2.dest "wrong"
      = .error .decryptionError ∧
    read_keystore (some (.rawCipher [1, 2])) "wrong" = .error .decryptionError) :=
  ⟨by decide,
   C5_wrong_passphrase (.v1 [("a", ⟨.str "text/plain", [1]⟩)]) "hunter2" "wrong"
     ⟨none, none⟩ [1, 2] (by decide)⟩

/-- Claim C6, code bug: on a decrypted V2 plaintext with a correct MAGIC
member, a missing META-INF/CONTENTS member raises the builtin KeyError, a
corrupted manifest raises json.JSONDecodeError, and a manifest listing a
nonexistent zip_path raises KeyError; the CorruptZippedKeyring class the
source defines for this purpose is never raised, so no CorruptVault error
with a descriptive message is produced. -/
theorem C6_manifest_failures_raise_builtin :
    V2ZipStore.read (.zipArch [("META-INF/MAGIC", .raw ZIP_KEYRING_MAGIC)])
      = .error .keyError ∧
    V2ZipStore.read (.zipArch [("META-INF/MAGIC", .raw ZIP_KEYRING_MAGIC),
        ("META-INF/CONTENTS", .raw [0, 1])])
      = .error .jsonDecodeError ∧
    V2ZipStore.read (.zipArch [("META-INF/MAGIC", .raw ZIP_KEYRING_MAGIC),
        ("META-INF/CONTENTS",
         .json (.arr [.obj [("zip_path", .str "x"), ("mimetype", .str "m")]]))])
      = .error .keyError ∧
    (∀ m : String, PyExc.keyError ≠ .corruptZippedKeyring m) ∧
    (∀ m : String, PyExc.jsonDecodeError ≠ .corruptZippedKeyring m) :=
  ⟨rfl, rfl, rfl, fun _ h => PyExc.noConfusion h, fun _ h => PyExc.noConfusion h⟩

/-- Claim C7: opening a V2 archive whose META-INF/MAGIC member is missing, or
whose MAGIC bytes differ from the fixed marker, fails with NotAVaultArchive
(source class NotAZippedKeyring), for every archive - in particular before
any manifest record or entry payload is decoded. -/
theorem C7_magic_validation (members : List (String × PText)) :
    (zipOpenMember members "META-INF/MAGIC" = .error .keyError →
      V2ZipStore.read (.zipArch members)
        = .error (.notAZippedKeyring "Unable to read META-INF/MAGIC.")) ∧
    (∀ m : PText, zipOpenMember members "META-INF/MAGIC" = .ok m →
      readBytes m ≠ ZIP_KEYRING_MAGIC →
      V2ZipStore.read (.zipArch members)
        = .error (.notAZippedKeyring "META-INF/MAGIC did not have the correct value.")) := by
  constructor
  · intro h
    simp [V2ZipStore.read, V2ZipStore.open_as_zip_keyring, h]
  · intro m hm hne
    simp [V2ZipStore.read, V2ZipStore.open_as_zip_keyring, hm, hne]

/-- Claim C7, witness: a V2 archive without MAGIC (even one with a garbage
manifest) and one with wrong MAGIC bytes. -/
theorem C7_magic_validation_witness :
    V2ZipStore.read (.zipArch [("other", PText.raw [0]), ("META-INF/CONTENTS", PText.raw [1])])
      = .error (.notAZippedKeyring "Unable to read META-INF/MAGIC.") ∧
    V2ZipStore.read (.zipArch [("META-INF/MAGIC", PText.raw [9])])
      = .error (.notAZippedKeyring "META-INF/MAGIC did not have the correct value.") :=
  ⟨(C7_magic_validation [("other", PText.raw [0]), ("META-INF/CONTENTS", PText.raw [1])]).1 rfl,
   (C7_magic_validation [("META-INF/MAGIC", PText.raw [9])]).2 (PText.raw [9]) rfl (by decide)⟩

/-- Claim C8, counterexample: the V1 codec defines no FormatError; the three
malformed classes the claim lists raise three distinct Python builtin
exceptions, so no single dedicated error kind covers them: a non-object top
level raises AttributeError while a missing sub-field raises KeyError. -/
theorem C8_counterexample :
    V1JsonStore.read (.gzipped (.json (.arr []))) = .error .attributeError ∧
    V1JsonStore.read (.gzipped (.json (.obj [("a", .obj [("data", .str "")])])))
      = .error .keyError ∧
    PyExc.attributeError ≠ PyExc.keyError :=
  ⟨rfl, rfl, by decide⟩

/-- Claim C8, amended: V1 decode does fail on every listed malformed class,
but with Python builtin exceptions rather than a dedicated FormatError: a
top-level JSON array or string raises AttributeError, a missing type or data
sub-field raises KeyError, and invalid base64 in a data field raises
binascii.Error. -/
theorem C8_errors_amended (xs : List Json) (s k mt e : String) :
    V1JsonStore.read (.gzipped (.json (.arr xs))) = .error .attributeError ∧
    V1JsonStore.read (.gzipped (.json (.str s))) = .error .attributeError ∧
    V1JsonStore.read (.gzipped (.json (.obj [(k, .obj [("data", .str e)])])))
      = .error .keyError ∧
    V1JsonStore.read (.gzipped (.json (.obj [(k, .obj [("type", .str mt)])])))
      = .error .keyError ∧
    V1JsonStore.read (.gzipped (.json (.obj [(k, .obj [("type", .str mt), ("data", .str "A")])])))
      = .error .binasciiError := by
  refine ⟨rfl, rfl, ?_, ?_, ?_⟩
  · simp [V1JsonStore.read, gunzip, V1JsonStore.read_store_data, jsonLoads,
      V1JsonStore.read_items, jsonGetItem, assocLookup]
  · simp [V1JsonStore.read, gunzip, V1JsonStore.read_store_data, jsonLoads,
      V1JsonStore.read_items, jsonGetItem, assocLookup, asAsciiStr]
  · simp [V1JsonStore.read, gunzip, V1JsonStore.read_store_data, jsonLoads,
      V1JsonStore.read_items, jsonGetItem_entry_type, jsonGetItem_entry_data,
      asAsciiStr, b64decode, b64decAux]

/-- Claim C9, counterexample: a read_keystore or write_keystore call that is
given an explicit gpg_context creates no trust-store directory at all (the
_wrap_gpg decorator only builds one when the keyword is absent or None),
refuting the claim that every call creates a fresh directory at entry. -/
theorem C9_counterexample :
    wrap_gpg (some 5) (Except.ok ([] : Store)) ⟨3, [0, 1, 2]⟩
      = (Except.ok ([] : Store), ⟨3, [0, 1, 2]⟩, none) ∧
    (∀ d : Nat, (none : Option Nat) ≠ some d) :=
  ⟨rfl, fun _ h => nomatch h⟩

/-- Claim C9, amended: every call that does not receive a caller-supplied gpg
context creates a fresh trust-store directory (one not previously on disk)
at entry, deletes exactly that directory before returning whether the body
returns or raises, and two successive such calls never reuse a directory;
a call given an explicit context uses it as is, creating and deleting
nothing. -/
theorem C9_wrap_gpg_amended (r r2 : Except PyExc Store) (s : GpgState) (g : Nat)
    (hinv : ∀ d ∈ s.dirs, d < s.nextId) :
    (wrap_gpg none r s).2.2 = some s.nextId ∧
    s.nextId ∉ s.dirs ∧
    (wrap_gpg none r s).2.1.dirs = s.dirs ∧
    (wrap_gpg none r s).1 = r ∧
    (wrap_gpg none r2 (wrap_gpg none r s).2.1).2.2 = some (s.nextId + 1) ∧
    s.nextId + 1 ≠ s.nextId ∧
    wrap_gpg (some g) r s = (r, s, none) := by
  refine ⟨rfl, ?_, ?_, rfl, ?_, by omega, rfl⟩
  · intro hmem
    exact absurd (hinv _ hmem) (by omega)
  · simp [wrap_gpg, mkdtemp, rmTree]
  · simp [wrap_gpg, mkdtemp, rmTree]

/-- Claim C9, witness for the amended theorem at a concrete directory state. -/
theorem C9_wrap_gpg_amended_witness :
    (∀ d ∈ ([0, 1] : List Nat), d < 2) ∧
    ((wrap_gpg none (Except.ok ([] : Store)) ⟨2, [0, 1]⟩).2.2 = some 2 ∧
    2 ∉ ([0, 1] : List Nat) ∧
    (wrap_gpg none (Except.ok ([] : Store)) ⟨2, [0, 1]⟩).2.1.dirs = [0, 1] ∧
    (wrap_gpg none (Except.ok ([] : Store)) ⟨2, [0, 1]⟩).1 = Except.ok ([] : Store) ∧
    (wrap_gpg none (Except.error PyExc.decryptionError : Except PyExc Store)
      (wrap_gpg none (Except.ok ([] : Store)) ⟨2, [0, 1]⟩).2.1).2.2 = some 3 ∧
    (2 + 1 ≠ 2) ∧
    wrap_gpg (some 7) (Except.ok ([] : Store)) ⟨2, [0, 1]⟩
      = (Except.ok ([] : Store), ⟨2, [0, 1]⟩, none)) :=
  ⟨by decide,
   C9_wrap_gpg_amended (Except.ok ([] : Store))
     (Except.error PyExc.decryptionError : Except PyExc Store) ⟨2, [0, 1]⟩ 7 (by decide)⟩

/-- Claim C10: the V2 encoder writes a member for every entry at its name with
no reserved-name check (the member path list is always MAGIC, then the entry
names in order, then CONTENTS); the codec-level round trip holds for every
store with unique names none of which is a reserved metadata path; a store
using a reserved name produces duplicate member paths, and the round trip
fails for a concrete such store. -/
theorem C10_v2_reserved_names (S T U : Store)
    (hnd : (S.map Prod.fst).Nodup)
    (hm : "META-INF/MAGIC" ∉ S.map Prod.fst)
    (hc : "META-INF/CONTENTS" ∉ S.map Prod.fst)
    (hdup : "META-INF/MAGIC" ∈ T.map Prod.fst ∨ "META-INF/CONTENTS" ∈ T.map Prod.fst) :
    ((v2members U).map Prod.fst
      = "META-INF/MAGIC" :: U.map Prod.fst ++ ["META-INF/CONTENTS"]) ∧
    V2ZipStore.read (V2ZipStore.write S) = .ok S ∧
    ¬ ((v2members T).map Prod.fst).Nodup ∧
    V2ZipStore.read (V2ZipStore.write [("META-INF/MAGIC", ⟨.str "m", [1]⟩)])
      = .error (.notAZippedKeyring "META-INF/MAGIC did not have the correct value.") ∧
    (Except.error (PyExc.notAZippedKeyring "META-INF/MAGIC did not have the correct value.")
      : Except PyExc Store) ≠ .ok [("META-INF/MAGIC", ⟨.str "m", [1]⟩)] := by
  refine ⟨?_, v2_roundtrip S hnd hm hc, ?_, rfl, fun h => nomatch h⟩
  · simp [v2members, List.map_map, Function.comp]
  · intro hnod
    have hkeys : (v2members T).map Prod.fst
        = "META-INF/MAGIC" :: T.map Prod.fst ++ ["META-INF/CONTENTS"] := by
      simp [v2members, List.map_map, Function.comp]
    rw [hkeys] at hnod
    rcases hdup with h | h
    · simp only [List.nodup_append, List.nodup_cons] at hnod
      exact hnod.1.1 h
    · simp only [List.nodup_append, List.disjoint_left] at hnod
      exact hnod.2.2 (List.mem_cons_of_mem _ h) (by simp)

/-- Claim C10, witness at concrete clean and reserved-name stores. -/
theorem C10_v2_reserved_names_witness :
    ((([("a", ⟨.str "t", [1]⟩)] : Store).map Prod.fst).Nodup ∧
     "META-INF/MAGIC" ∉ (([("a", ⟨.str "t", [1]⟩)] : Store)).map Prod.fst ∧
     "META-INF/CONTENTS" ∉ (([("a", ⟨.str "t", [1]⟩)] : Store)).map Prod.fst ∧
     ("META-INF/MAGIC" ∈ (([("META-INF/MAGIC", ⟨.str "m", [1]⟩)] : Store)).map Prod.fst ∨
      "META-INF/CONTENTS" ∈ (([("META-INF/MAGIC", ⟨.str "m", [1]⟩)] : Store)).map Prod.fst)) ∧
    (((v2members [("b", ⟨.str "u", [2]⟩)]).map Prod.fst
       = "META-INF/MAGIC" :: ([("b", (⟨.str "u", [2]⟩ : Item))] : Store).map Prod.fst
          ++ ["META-INF/CONTENTS"]) ∧
     V2ZipStore.read (V2ZipStore.write [("a", ⟨.str "t", [1]⟩)])
       = .ok [("a", ⟨.str "t", [1]⟩)] ∧
     ¬ ((v2members [("META-INF/MAGIC", ⟨.str "m", [1]⟩)]).map Prod.fst).Nodup ∧
     V2ZipStore.read (V2ZipStore.write [("META-INF/MAGIC", ⟨.str "m", [1]⟩)])
       = .error (.notAZippedKeyring "META-INF/MAGIC did not have the correct value.") ∧
     (Except.error (PyExc.notAZippedKeyring "META-INF/MAGIC did not have the correct value.")
       : Except PyExc Store) ≠ .ok [("META-INF/MAGIC", ⟨.str "m", [1]⟩)]) :=
  ⟨⟨by simp, by simp, by simp, Or.inl (by simp)⟩,
   C10_v2_reserved_names [("a", ⟨.str "t", [1]⟩)] [("META-INF/MAGIC", ⟨.str "m", [1]⟩)]
     [("b", ⟨.str "u", [2]⟩)] (by simp) (by simp) (by simp) (Or.inl (by simp))⟩
